import Mathlib

/-!
Verification of scripts/generate_summaries.py (trailcache).

The script batch-generates 40-character summaries for merit badge
requirement texts by calling an external text-generation service, with a
JSON checkpoint for resumption and a final JSON output artifact.

Shallow embedding conventions:
- Python JSON values are modelled by the inductive type Json; Python dicts
  (as produced by json.loads and written by json.dump, which preserve
  insertion order and have unique keys) are association lists
  List (String × Json) with first-match lookup and replace-or-append update,
  which agrees with Python dict semantics on duplicate-free lists.
- The service call together with reply stripping and json.loads is
  abstracted as a ServiceOutcome oracle: ServiceOutcome.err msg is any
  exception raised while producing a parsed dict (network error, timeout,
  missing content, JSON decode error, or the AttributeError raised by
  result.get when json.loads returns a non-dict); ServiceOutcome.ok fields
  is a successfully parsed JSON object.
- Exceptions raised after parsing, inside the validation code of
  generate_summary (len() on an unsized value, slicing or concatenating a
  non-string), are modelled explicitly: they are caught by the same
  try/except and produce the same fallback record, with representative
  CPython exception messages.
- File writes (save_checkpoint, the output dump) persist the in-memory
  mapping verbatim; the model tracks the mapping itself. time.strftime for
  the generated field is modelled by a date parameter of the run.
-/

set_option maxRecDepth 4000

/-- A JSON value, as produced by Python json.loads: null, booleans, numbers
(modelled as integers; the script never manipulates numerals), strings,
arrays and objects. -/
inductive Json where
  | null : Json
  | bool : Bool → Json
  | num : Int → Json
  | str : String → Json
  | arr : List Json → Json
  | obj : List (String × Json) → Json

/-- Python d.get(k): first binding of k in the association list, none when
absent (Python returns None / the supplied default). -/
def pyGet (fields : List (String × Json)) (k : String) : Option Json :=
  match fields with
  | [] => none
  | (k', v) :: rest => if k' = k then some v else pyGet rest k

/-- Python d[k] = v: replace the first binding of k in place, appending a
new binding when k is absent (Python dicts keep insertion order). -/
def pySet (fields : List (String × Json)) (k : String) (v : Json) :
    List (String × Json) :=
  match fields with
  | [] => [(k, v)]
  | (k', v') :: rest =>
      if k' = k then (k, v) :: rest else (k', v') :: pySet rest k v

/-- Python len(x) on a JSON value: defined for strings, arrays and objects;
none models the TypeError len raises on null, booleans and numbers. -/
def pyLen : Json → Option Nat
  | .str s => some s.length
  | .arr xs => some xs.length
  | .obj fs => some fs.length
  | _ => none

/-- Python truthiness of a JSON value (bool(x)): None, False, 0, empty
string, empty list and empty dict are falsy. -/
def pyTruthy : Json → Bool
  | .null => false
  | .bool b => b
  | .num n => n != 0
  | .str s => s != ""
  | .arr xs => !xs.isEmpty
  | .obj fs => !fs.isEmpty

/-- Python x[:n] is defined on strings and lists; on other values slicing
(or the subsequent concatenation with a string) raises a TypeError. Used to
model the driver print of result["summary"][:50]. -/
def pySliceOk : Json → Bool
  | .str _ => true
  | .arr _ => true
  | _ => false

/-- Representative CPython message of the TypeError raised by len(x) on an
unsized value (object of type ... has no len()). -/
def lenErrMsg : Json → String
  | .null => "object of type NoneType has no len()"
  | .bool _ => "object of type bool has no len()"
  | _ => "object of type int has no len()"

/-- Representative CPython message of the TypeError raised when the
validation branch slices and concatenates a non-string summary whose len
exceeds 40 (a list cannot be concatenated with a string; a dict cannot be
sliced). -/
def sliceErrMsg : Json → String
  | .arr _ => "can only concatenate list (not str) to list"
  | _ => "unhashable type: slice"

/-- MAX_SUMMARY_LENGTH = 40 (generate_summaries.py line 29). -/
def MAX_SUMMARY_LENGTH : Nat := 40

/-- The except-branch of generate_summary (lines 122-128): fallback record
with the original text truncated to 39 characters plus an ellipsis, and a
flag carrying the first 50 characters of the exception message. -/
def fallbackRecord (text msg : String) : List (String × Json) :=
  [("summary", .str (text.take (MAX_SUMMARY_LENGTH - 1) ++ "…")),
   ("flag", .str ("API error: " ++ msg.take 50))]

/-- Lines 111-120 of generate_summary: summary = result.get("summary", "");
if len(summary) > 40 truncate to 39 chars plus ellipsis and, when
result.get("flag") is falsy, set flag to auto-truncated; exceptions raised
here (len on an unsized value, slicing a non-string) are caught by the
surrounding try and produce the fallback record. -/
def validateResult (text : String) (fields : List (String × Json)) :
    List (String × Json) :=
  let summary := (pyGet fields "summary").getD (.str "")
  match pyLen summary with
  | none => fallbackRecord text (lenErrMsg summary)
  | some n =>
      if MAX_SUMMARY_LENGTH < n then
        match summary with
        | .str s =>
            let fields1 :=
              pySet fields "summary"
                (.str (s.take (MAX_SUMMARY_LENGTH - 1) ++ "…"))
            if pyTruthy ((pyGet fields1 "flag").getD .null) then fields1
            else pySet fields1 "flag" (.str "auto-truncated")
        | other => fallbackRecord text (sliceErrMsg other)
      else fields

/-- Outcome of one service interaction as seen by generate_summary after
json parsing: err msg is any exception raised while obtaining a parsed
dict (caught at line 122); ok fields is a reply parsed to a JSON object. -/
inductive ServiceOutcome where
  | err : String → ServiceOutcome
  | ok : List (String × Json) → ServiceOutcome

/-- generate_summary (lines 69-128): texts of length at most 40 are
returned unchanged with a null flag, before any service call; otherwise the
service outcome is parsed and validated, any exception yielding the
fallback record. The badge name and requirement number only shape the
prompt consumed by the service, which the outcome oracle abstracts. -/
def generate_summary (text : String) (outcome : ServiceOutcome) :
    List (String × Json) :=
  if text.length ≤ MAX_SUMMARY_LENGTH then
    [("summary", .str text), ("flag", .null)]
  else
    match outcome with
    | .err msg => fallbackRecord text msg
    | .ok fields => validateResult text fields

/-- Number of client.messages.create invocations generate_summary performs
for a given text: the call at line 94 executes only in the else branch of
the length short-circuit. -/
def generate_summary_calls (text : String) : Nat :=
  if text.length ≤ MAX_SUMMARY_LENGTH then 0 else 1

/-- Line 147 of main: the unprocessed subset, keeping the unique texts not
already bound in the loaded checkpoint (uniqueTexts lists the keys of
load_requirements in insertion order; provenance only shapes prompts and
progress prints). -/
def toProcess (uniqueTexts : List String)
    (checkpoint : List (String × Json)) : List String :=
  uniqueTexts.filter (fun t => (pyGet checkpoint t).isNone)

/-- One iteration of the driver loop (lines 157-184) performs; first the
record is stored (line 165: summaries[text] = result). -/
def loopStore (oracle : String → ServiceOutcome)
    (summaries : List (String × Json)) (text : String) :
    List (String × Json) :=
  pySet summaries text (.obj (generate_summary text (oracle text)))

/-- The in-memory summaries mapping after the driver has processed a given
prefix of the unprocessed items, starting from the loaded checkpoint.
save_checkpoint (lines 63-67, called every BATCH_SIZE items and at the end)
persists this mapping verbatim. -/
def loopStateAfter (oracle : String → ServiceOutcome)
    (checkpoint : List (String × Json)) (processed : List String) :
    List (String × Json) :=
  processed.foldl (loopStore oracle) checkpoint

/-- The driver loop (lines 157-184): for each unprocessed text, store the
generate_summary record, then print result["summary"][:50] (line 167) -
which raises KeyError when the record has no summary key and TypeError when
the summary value cannot be sliced and concatenated, halting the script
since main has no try around the loop. -/
def processLoop (oracle : String → ServiceOutcome) :
    List String → List (String × Json) → Except String (List (String × Json))
  | [], summaries => .ok summaries
  | text :: rest, summaries =>
      let result := generate_summary text (oracle text)
      let summaries1 := pySet summaries text (.obj result)
      match pyGet result "summary" with
      | none => .error "KeyError: summary"
      | some v =>
          if pySliceOk v then processLoop oracle rest summaries1
          else .error "TypeError: summary value cannot be sliced"

/-- Number of service calls the driver loop performs: one per processed
item whose text exceeds 40 characters, counting only iterations actually
reached before a crash. -/
def loopCalls (oracle : String → ServiceOutcome) :
    List String → List (String × Json) → Nat
  | [], _ => 0
  | text :: rest, summaries =>
      let result := generate_summary text (oracle text)
      let summaries1 := pySet summaries text (.obj result)
      generate_summary_calls text +
        match pyGet result "summary" with
        | none => 0
        | some v => if pySliceOk v then loopCalls oracle rest summaries1 else 0

/-- The output artifact (lines 205-210): version, generation date,
summaries mapping and flags mapping. -/
structure Output where
  version : String
  generated : String
  summaries : List (String × Json)
  flags : List (String × Json)

/-- The summaries comprehension of line 208: v["summary"] for every
checkpoint record; subscripting a non-dict record or one lacking the
summary key raises, aborting the run before the artifact is written. -/
def summariesField : List (String × Json) → Option (List (String × Json))
  | [] => some []
  | (k, v) :: rest =>
      match v with
      | .obj fs =>
          match pyGet fs "summary" with
          | none => none
          | some s =>
              match summariesField rest with
              | none => none
              | some tail => some ((k, s) :: tail)
      | _ => none

/-- The flags comprehension of line 209: keys whose record has a truthy
flag value (if v.get("flag")), mapped to that value. -/
def flagsField : List (String × Json) → List (String × Json)
  | [] => []
  | (k, v) :: rest =>
      match v with
      | .obj fs =>
          match pyGet fs "flag" with
          | some f =>
              if pyTruthy f then (k, f) :: flagsField rest
              else flagsField rest
          | none => flagsField rest
      | _ => flagsField rest

/-- Lines 200-213 of main: build and write the final output artifact from
the full summaries mapping; date is the value of time.strftime on the day
of the run. -/
def buildOutput (date : String) (summaries : List (String × Json)) :
    Except String Output :=
  match summariesField summaries with
  | none => .error "KeyError or TypeError while building output summaries"
  | some ss =>
      .ok { version := "1.0", generated := date,
            summaries := ss, flags := flagsField summaries }

/-- The batch run of main after setup (lines 143-213): load the checkpoint,
filter to the unprocessed texts, run the driver loop, and build the output
artifact. Returns the artifact together with the final checkpoint mapping,
or the uncaught exception that halted the run. -/
def mainRun (oracle : String → ServiceOutcome) (date : String)
    (uniqueTexts : List String) (checkpoint : List (String × Json)) :
    Except String (Output × List (String × Json)) :=
  match processLoop oracle (toProcess uniqueTexts checkpoint) checkpoint with
  | .error e => .error e
  | .ok finalSummaries =>
      match buildOutput date finalSummaries with
      | .error e => .error e
      | .ok out => .ok (out, finalSummaries)

/-- Number of service calls a run of main performs. -/
def mainCalls (oracle : String → ServiceOutcome)
    (uniqueTexts : List String) (checkpoint : List (String × Json)) : Nat :=
  loopCalls oracle (toProcess uniqueTexts checkpoint) checkpoint

/-- A 55-character text, longer than MAX_SUMMARY_LENGTH, reused as a
concrete non-trivial input. -/
def longText : String :=
  "this text is much longer than forty characters in total"

/-- The example input of the spec: a 72-character requirement text. -/
def bowlineText : String :=
  "Demonstrate tying the bowline knot in under 15 seconds while blindfolded"

/-- A 41-character string, one character over the limit. -/
def fortyOneChars : String :=
  "xxxxxxxxxxxxxxxxxxxxxxxxxxxxxxxxxxxxxxxxx"

example : generate_summary "short" (.err "boom") =
    [("summary", .str "short"), ("flag", .null)] := rfl

example : generate_summary
    "this text is much longer than forty characters in total" (.err "boom") =
    [("summary", .str "this text is much longer than forty cha…"),
     ("flag", .str "API error: boom")] := rfl


example : longText.length = 55 := by decide

example : bowlineText.length = 72 := by decide

example : fortyOneChars.length = 41 := by decide

/-! Helper lemmas about strings and the Python dict operations. -/

theorem string_length_take (s : String) (n : Nat) :
    (s.take n).length = min n s.length := by
  rw [String.take_eq]
  show (s.1.take n).length = min n s.1.length
  exact List.length_take n s.1

theorem truncated_length_le (s : String) :
    (s.take (MAX_SUMMARY_LENGTH - 1) ++ "…").length ≤ MAX_SUMMARY_LENGTH := by
  rw [String.length_append, string_length_take]
  have h1 : ("…" : String).length = 1 := rfl
  rw [h1, MAX_SUMMARY_LENGTH]
  omega

theorem truncated_length_eq (s : String) (h : MAX_SUMMARY_LENGTH - 1 ≤ s.length) :
    (s.take (MAX_SUMMARY_LENGTH - 1) ++ "…").length = MAX_SUMMARY_LENGTH := by
  rw [String.length_append, string_length_take]
  have h1 : ("…" : String).length = 1 := rfl
  rw [h1]
  rw [MAX_SUMMARY_LENGTH] at h ⊢
  omega

theorem pyGet_pySet_self (fs : List (String × Json)) (k : String) (v : Json) :
    pyGet (pySet fs k v) k = some v := by
  induction fs with
  | nil => simp [pySet, pyGet]
  | cons hd tl ih =>
      obtain ⟨k', v'⟩ := hd
      by_cases h : k' = k
      · simp [pySet, pyGet, h]
      · simp [pySet, pyGet, h, ih]

theorem pyGet_pySet_ne (fs : List (String × Json)) (k k' : String) (v : Json)
    (h : k' ≠ k) : pyGet (pySet fs k v) k' = pyGet fs k' := by
  have hne : k ≠ k' := Ne.symm h
  induction fs with
  | nil => simp [pySet, pyGet, hne]
  | cons hd tl ih =>
      obtain ⟨k0, v0⟩ := hd
      by_cases h0 : k0 = k
      · subst h0
        simp [pySet, pyGet, hne]
      · simp [pySet, pyGet, h0, ih]

theorem pyGet_pySet_isSome (fs : List (String × Json)) (k k' : String)
    (v : Json) (h : (pyGet fs k').isSome) :
    (pyGet (pySet fs k v) k').isSome := by
  by_cases hk : k' = k
  · subst hk
    rw [pyGet_pySet_self]
    rfl
  · rw [pyGet_pySet_ne fs k k' v hk]
    exact h

theorem mem_pySet (fs : List (String × Json)) (k a : String) (v b : Json)
    (h : (a, b) ∈ pySet fs k v) : (a, b) ∈ fs ∨ (a = k ∧ b = v) := by
  induction fs with
  | nil =>
      simp [pySet] at h
      exact Or.inr h
  | cons hd tl ih =>
      obtain ⟨k0, v0⟩ := hd
      by_cases h0 : k0 = k
      · subst h0
        simp [pySet] at h
        rcases h with h | h
        · exact Or.inr h
        · exact Or.inl (List.mem_cons_of_mem _ h)
      · simp [pySet, h0] at h
        rcases h with h | h
        · exact Or.inl (by simp [h])
        · rcases ih h with h2 | h2
          · exact Or.inl (List.mem_cons_of_mem _ h2)
          · exact Or.inr h2

theorem pySet_absent (fs : List (String × Json)) (k : String) (v : Json)
    (h : pyGet fs k = none) : pySet fs k v = fs ++ [(k, v)] := by
  induction fs with
  | nil => simp [pySet]
  | cons hd tl ih =>
      obtain ⟨k0, v0⟩ := hd
      by_cases h0 : k0 = k
      · simp [pyGet, h0] at h
      · simp [pyGet, h0] at h
        simp [pySet, h0, ih h]

/-! Lemmas about the summarizer. -/

theorem fallbackRecord_summary_get (text msg : String) :
    pyGet (fallbackRecord text msg) "summary" =
      some (.str (text.take (MAX_SUMMARY_LENGTH - 1) ++ "…")) := rfl

theorem fallbackRecord_flag_get (text msg : String) :
    pyGet (fallbackRecord text msg) "flag" =
      some (.str ("API error: " ++ msg.take 50)) := by
  simp [fallbackRecord, pyGet]

theorem validateResult_summary_le (text : String)
    (fields : List (String × Json)) (s : String)
    (h : pyGet (validateResult text fields) "summary" = some (.str s)) :
    s.length ≤ MAX_SUMMARY_LENGTH := by
  have hell : ("…" : String).length = 1 := rfl
  unfold validateResult at h
  cases hg : pyGet fields "summary" with
  | none =>
      rw [hg] at h
      simp only [Option.getD, pyLen] at h
      have h0 : ¬ (MAX_SUMMARY_LENGTH < ("" : String).length) := by decide
      rw [if_neg h0] at h
      rw [hg] at h
      cases h
  | some j =>
      rw [hg] at h
      cases j with
      | str s0 =>
          simp only [Option.getD, pyLen] at h
          by_cases hlt : MAX_SUMMARY_LENGTH < s0.length
          · rw [if_pos hlt] at h
            split at h
            · rw [pyGet_pySet_self] at h
              injection h with h1
              injection h1 with h2
              rw [← h2]
              exact truncated_length_le s0
            · rw [pyGet_pySet_ne _ _ _ _ (by decide),
                pyGet_pySet_self] at h
              injection h with h1
              injection h1 with h2
              rw [← h2]
              exact truncated_length_le s0
          · rw [if_neg hlt] at h
            rw [hg] at h
            injection h with h1
            injection h1 with h2
            rw [← h2]
            omega
      | null =>
          simp only [Option.getD, pyLen, fallbackRecord_summary_get] at h
          injection h with h1
          injection h1 with h2
          rw [← h2]
          exact truncated_length_le text
      | bool b =>
          simp only [Option.getD, pyLen, fallbackRecord_summary_get] at h
          injection h with h1
          injection h1 with h2
          rw [← h2]
          exact truncated_length_le text
      | num n =>
          simp only [Option.getD, pyLen, fallbackRecord_summary_get] at h
          injection h with h1
          injection h1 with h2
          rw [← h2]
          exact truncated_length_le text
      | arr xs =>
          simp only [Option.getD, pyLen] at h
          by_cases hlt : MAX_SUMMARY_LENGTH < xs.length
          · rw [if_pos hlt] at h
            rw [fallbackRecord_summary_get] at h
            injection h with h1
            injection h1 with h2
            rw [← h2]
            exact truncated_length_le text
          · rw [if_neg hlt] at h
            rw [hg] at h
            cases h
      | obj fs2 =>
          simp only [Option.getD, pyLen] at h
          by_cases hlt : MAX_SUMMARY_LENGTH < fs2.length
          · rw [if_pos hlt] at h
            rw [fallbackRecord_summary_get] at h
            injection h with h1
            injection h1 with h2
            rw [← h2]
            exact truncated_length_le text
          · rw [if_neg hlt] at h
            rw [hg] at h
            cases h

theorem generate_summary_summary_le (text : String)
    (outcome : ServiceOutcome) (s : String)
    (h : pyGet (generate_summary text outcome) "summary" = some (.str s)) :
    s.length ≤ MAX_SUMMARY_LENGTH := by
  unfold generate_summary at h
  by_cases hlen : text.length ≤ MAX_SUMMARY_LENGTH
  · rw [if_pos hlen] at h
    simp only [pyGet, if_pos rfl] at h
    injection h with h1
    injection h1 with h2
    rw [← h2]
    exact hlen
  · rw [if_neg hlen] at h
    cases outcome with
    | err msg =>
        rw [fallbackRecord_summary_get] at h
        injection h with h1
        injection h1 with h2
        rw [← h2]
        exact truncated_length_le text
    | ok fields => exact validateResult_summary_le text fields s h

/-! Lemmas about the batch driver loop. -/

theorem mem_toProcess_none (uniqueTexts : List String)
    (checkpoint : List (String × Json)) (t : String)
    (h : t ∈ toProcess uniqueTexts checkpoint) :
    pyGet checkpoint t = none := by
  rw [toProcess, List.mem_filter] at h
  exact Option.isNone_iff_eq_none.mp h.2

theorem loopStateAfter_nil (oracle : String → ServiceOutcome)
    (checkpoint : List (String × Json)) :
    loopStateAfter oracle checkpoint [] = checkpoint := rfl

theorem loopStateAfter_cons (oracle : String → ServiceOutcome)
    (checkpoint : List (String × Json)) (t : String) (rest : List String) :
    loopStateAfter oracle checkpoint (t :: rest) =
      loopStateAfter oracle (loopStore oracle checkpoint t) rest := rfl

theorem loopStateAfter_preserves (oracle : String → ServiceOutcome)
    (k : String) (v : Json) :
    ∀ (processed : List String) (checkpoint : List (String × Json)),
      pyGet checkpoint k = some v → k ∉ processed →
      pyGet (loopStateAfter oracle checkpoint processed) k = some v := by
  intro processed
  induction processed with
  | nil =>
      intro checkpoint h _
      rw [loopStateAfter_nil]
      exact h
  | cons t rest ih =>
      intro checkpoint h hn
      have hkt : k ≠ t := by
        intro e
        exact hn (e ▸ List.mem_cons_self t rest)
      rw [loopStateAfter_cons]
      refine ih (loopStore oracle checkpoint t) ?_ ?_
      · rw [loopStore, pyGet_pySet_ne _ _ _ _ hkt]
        exact h
      · intro hr
        exact hn (List.mem_cons_of_mem t hr)

theorem mem_loopStateAfter (oracle : String → ServiceOutcome)
    (k : String) (v : Json) :
    ∀ (processed : List String) (checkpoint : List (String × Json)),
      (k, v) ∈ loopStateAfter oracle checkpoint processed →
      (k, v) ∈ checkpoint ∨
        ∃ t, v = .obj (generate_summary t (oracle t)) := by
  intro processed
  induction processed with
  | nil =>
      intro checkpoint h
      exact Or.inl h
  | cons t rest ih =>
      intro checkpoint h
      rw [loopStateAfter_cons] at h
      rcases ih (loopStore oracle checkpoint t) h with h2 | h2
      · rcases mem_pySet _ _ _ _ _ h2 with h3 | h3
        · exact Or.inl h3
        · exact Or.inr ⟨t, h3.2⟩
      · exact Or.inr h2

theorem processLoop_ok_state (oracle : String → ServiceOutcome) :
    ∀ (items : List String) (s s1 : List (String × Json)),
      processLoop oracle items s = .ok s1 →
      s1 = loopStateAfter oracle s items := by
  intro items
  induction items with
  | nil =>
      intro s s1 h
      simp only [processLoop] at h
      injection h with h1
      rw [← h1, loopStateAfter_nil]
  | cons t rest ih =>
      intro s s1 h
      rw [loopStateAfter_cons]
      simp only [processLoop] at h
      cases hm : pyGet (generate_summary t (oracle t)) "summary" with
      | none => rw [hm] at h; cases h
      | some v =>
          rw [hm] at h
          dsimp only at h
          by_cases hs : pySliceOk v = true
          · rw [if_pos hs] at h
            exact ih _ _ h
          · rw [if_neg hs] at h
            cases h

theorem processLoop_isSome (oracle : String → ServiceOutcome) (t : String) :
    ∀ (items : List String) (s s1 : List (String × Json)),
      processLoop oracle items s = .ok s1 →
      ((pyGet s t).isSome ∨ t ∈ items) → (pyGet s1 t).isSome := by
  intro items
  induction items with
  | nil =>
      intro s s1 h hp
      simp only [processLoop] at h
      injection h with h1
      rcases hp with hp | hp
      · rw [← h1]; exact hp
      · cases hp
  | cons t0 rest ih =>
      intro s s1 h hp
      simp only [processLoop] at h
      cases hm : pyGet (generate_summary t0 (oracle t0)) "summary" with
      | none => rw [hm] at h; cases h
      | some v =>
          rw [hm] at h
          dsimp only at h
          by_cases hs : pySliceOk v = true
          · rw [if_pos hs] at h
            refine ih _ _ h ?_
            rcases hp with hp | hp
            · exact Or.inl (pyGet_pySet_isSome _ _ _ _ hp)
            · rcases List.mem_cons.mp hp with hp2 | hp2
              · subst hp2
                left
                rw [pyGet_pySet_self]
                rfl
              · exact Or.inr hp2
          · rw [if_neg hs] at h
            cases h

/-! Lemmas about the output builder. -/

theorem summariesField_mem :
    ∀ (s ss : List (String × Json)), summariesField s = some ss →
    ∀ (k : String) (j : Json), (k, j) ∈ ss →
    ∃ fs, (k, Json.obj fs) ∈ s ∧ pyGet fs "summary" = some j := by
  intro s
  induction s with
  | nil =>
      intro ss h k j hm
      simp only [summariesField] at h
      injection h with h1
      rw [← h1] at hm
      cases hm
  | cons hd tl ih =>
      obtain ⟨k0, v0⟩ := hd
      intro ss h k j hm
      cases v0 with
      | obj fs0 =>
          simp only [summariesField] at h
          cases hg : pyGet fs0 "summary" with
          | none => rw [hg] at h; cases h
          | some s0 =>
              rw [hg] at h
              dsimp only at h
              cases ht : summariesField tl with
              | none => rw [ht] at h; cases h
              | some tail =>
                  rw [ht] at h
                  dsimp only at h
                  injection h with h1
                  rw [← h1] at hm
                  rcases List.mem_cons.mp hm with hm2 | hm2
                  · have hk : k = k0 := congrArg Prod.fst hm2
                    have hj : j = s0 := congrArg Prod.snd hm2
                    subst hk
                    subst hj
                    exact ⟨fs0, List.mem_cons_self _ _, hg⟩
                  · rcases ih tail ht k j hm2 with ⟨fs, hmem, hgs⟩
                    exact ⟨fs, List.mem_cons_of_mem _ hmem, hgs⟩
      | null => simp only [summariesField] at h; cases h
      | bool b => simp only [summariesField] at h; cases h
      | num n => simp only [summariesField] at h; cases h
      | str s0 => simp only [summariesField] at h; cases h
      | arr xs => simp only [summariesField] at h; cases h

theorem summariesField_total :
    ∀ (s ss : List (String × Json)), summariesField s = some ss →
    ∀ (k : String) (v : Json), (k, v) ∈ s →
    ∃ j, (k, j) ∈ ss := by
  intro s
  induction s with
  | nil =>
      intro ss h k v hm
      cases hm
  | cons hd tl ih =>
      obtain ⟨k0, v0⟩ := hd
      intro ss h k v hm
      cases v0 with
      | obj fs0 =>
          simp only [summariesField] at h
          cases hg : pyGet fs0 "summary" with
          | none => rw [hg] at h; cases h
          | some s0 =>
              rw [hg] at h
              dsimp only at h
              cases ht : summariesField tl with
              | none => rw [ht] at h; cases h
              | some tail =>
                  rw [ht] at h
                  dsimp only at h
                  injection h with h1
                  rcases List.mem_cons.mp hm with hm2 | hm2
                  · have hk : k = k0 := congrArg Prod.fst hm2
                    subst hk
                    exact ⟨s0, by rw [← h1]; exact List.mem_cons_self _ _⟩
                  · rcases ih tail ht k v hm2 with ⟨j, hj⟩
                    exact ⟨j, by rw [← h1]; exact List.mem_cons_of_mem _ hj⟩
      | null => simp only [summariesField] at h; cases h
      | bool b => simp only [summariesField] at h; cases h
      | num n => simp only [summariesField] at h; cases h
      | str s0 => simp only [summariesField] at h; cases h
      | arr xs => simp only [summariesField] at h; cases h

theorem flagsField_mem (k : String) (j : Json) :
    ∀ s : List (String × Json),
      (k, j) ∈ flagsField s ↔
        ∃ fs, (k, Json.obj fs) ∈ s ∧ pyGet fs "flag" = some j ∧
          pyTruthy j = true := by
  intro s
  induction s with
  | nil =>
      constructor
      · intro h; cases h
      · rintro ⟨fs, hmem, _, _⟩; cases hmem
  | cons hd tl ih =>
      obtain ⟨k0, v0⟩ := hd
      cases v0 with
      | obj fs0 =>
          cases hg : pyGet fs0 "flag" with
          | none =>
              rw [show flagsField ((k0, Json.obj fs0) :: tl) = flagsField tl
                by simp only [flagsField, hg]]
              rw [ih]
              constructor
              · rintro ⟨fs, hmem, hf, ht⟩
                exact ⟨fs, List.mem_cons_of_mem _ hmem, hf, ht⟩
              · rintro ⟨fs, hmem, hf, ht⟩
                rcases List.mem_cons.mp hmem with hm2 | hm2
                · have hfs : Json.obj fs = Json.obj fs0 :=
                    congrArg Prod.snd hm2
                  injection hfs with hfs2
                  rw [hfs2] at hf
                  rw [hf] at hg
                  cases hg
                · exact ⟨fs, hm2, hf, ht⟩
          | some f =>
              by_cases htr : pyTruthy f = true
              · rw [show flagsField ((k0, Json.obj fs0) :: tl) =
                    (k0, f) :: flagsField tl
                  by simp only [flagsField, hg]; rw [if_pos htr]]
                constructor
                · intro hm
                  rcases List.mem_cons.mp hm with hm2 | hm2
                  · have hk : k = k0 := congrArg Prod.fst hm2
                    have hj : j = f := congrArg Prod.snd hm2
                    subst hk
                    subst hj
                    exact ⟨fs0, List.mem_cons_self _ _, hg, htr⟩
                  · rcases (ih).mp hm2 with ⟨fs, hmem, hf, ht⟩
                    exact ⟨fs, List.mem_cons_of_mem _ hmem, hf, ht⟩
                · rintro ⟨fs, hmem, hf, ht⟩
                  rcases List.mem_cons.mp hmem with hm2 | hm2
                  · have hk : k = k0 := congrArg Prod.fst hm2
                    have hfs : Json.obj fs = Json.obj fs0 :=
                      congrArg Prod.snd hm2
                    injection hfs with hfs2
                    rw [hfs2] at hf
                    rw [hf] at hg
                    injection hg with hg2
                    subst hk
                    rw [hg2]
                    exact List.mem_cons_self _ _
                  · exact List.mem_cons_of_mem _ ((ih).mpr ⟨fs, hm2, hf, ht⟩)
              · rw [show flagsField ((k0, Json.obj fs0) :: tl) = flagsField tl
                  by simp only [flagsField, hg]; rw [if_neg htr]]
                rw [ih]
                constructor
                · rintro ⟨fs, hmem, hf, ht⟩
                  exact ⟨fs, List.mem_cons_of_mem _ hmem, hf, ht⟩
                · rintro ⟨fs, hmem, hf, ht⟩
                  rcases List.mem_cons.mp hmem with hm2 | hm2
                  · have hfs : Json.obj fs = Json.obj fs0 :=
                      congrArg Prod.snd hm2
                    injection hfs with hfs2
                    rw [hfs2] at hf
                    rw [hf] at hg
                    injection hg with hg2
                    rw [hg2] at ht
                    exact absurd ht htr
                  · exact ⟨fs, hm2, hf, ht⟩
      | null =>
          rw [show flagsField ((k0, Json.null) :: tl) = flagsField tl from rfl]
          rw [ih]
          constructor
          · rintro ⟨fs, hmem, hf, ht⟩
            exact ⟨fs, List.mem_cons_of_mem _ hmem, hf, ht⟩
          · rintro ⟨fs, hmem, hf, ht⟩
            rcases List.mem_cons.mp hmem with hm2 | hm2
            · have := congrArg Prod.snd hm2
              cases this
            · exact ⟨fs, hm2, hf, ht⟩
      | bool b =>
          rw [show flagsField ((k0, Json.bool b) :: tl) = flagsField tl
            from rfl]
          rw [ih]
          constructor
          · rintro ⟨fs, hmem, hf, ht⟩
            exact ⟨fs, List.mem_cons_of_mem _ hmem, hf, ht⟩
          · rintro ⟨fs, hmem, hf, ht⟩
            rcases List.mem_cons.mp hmem with hm2 | hm2
            · have := congrArg Prod.snd hm2
              cases this
            · exact ⟨fs, hm2, hf, ht⟩
      | num n =>
          rw [show flagsField ((k0, Json.num n) :: tl) = flagsField tl
            from rfl]
          rw [ih]
          constructor
          · rintro ⟨fs, hmem, hf, ht⟩
            exact ⟨fs, List.mem_cons_of_mem _ hmem, hf, ht⟩
          · rintro ⟨fs, hmem, hf, ht⟩
            rcases List.mem_cons.mp hmem with hm2 | hm2
            · have := congrArg Prod.snd hm2
              cases this
            · exact ⟨fs, hm2, hf, ht⟩
      | str s0 =>
          rw [show flagsField ((k0, Json.str s0) :: tl) = flagsField tl
            from rfl]
          rw [ih]
          constructor
          · rintro ⟨fs, hmem, hf, ht⟩
            exact ⟨fs, List.mem_cons_of_mem _ hmem, hf, ht⟩
          · rintro ⟨fs, hmem, hf, ht⟩
            rcases List.mem_cons.mp hmem with hm2 | hm2
            · have := congrArg Prod.snd hm2
              cases this
            · exact ⟨fs, hm2, hf, ht⟩
      | arr xs =>
          rw [show flagsField ((k0, Json.arr xs) :: tl) = flagsField tl
            from rfl]
          rw [ih]
          constructor
          · rintro ⟨fs, hmem, hf, ht⟩
            exact ⟨fs, List.mem_cons_of_mem _ hmem, hf, ht⟩
          · rintro ⟨fs, hmem, hf, ht⟩
            rcases List.mem_cons.mp hmem with hm2 | hm2
            · have := congrArg Prod.snd hm2
              cases this
            · exact ⟨fs, hm2, hf, ht⟩

/-! Lemmas about the whole run. -/

theorem buildOutput_ok_inv (date : String)
    (summaries : List (String × Json)) (out : Output)
    (h : buildOutput date summaries = .ok out) :
    summariesField summaries = some out.summaries ∧
      out.flags = flagsField summaries ∧
      out.version = "1.0" ∧ out.generated = date := by
  unfold buildOutput at h
  cases hs : summariesField summaries with
  | none => rw [hs] at h; cases h
  | some ss =>
      rw [hs] at h
      dsimp only at h
      injection h with h1
      rw [← h1]
      exact ⟨rfl, rfl, rfl, rfl⟩

theorem mainRun_ok_inv (oracle : String → ServiceOutcome) (date : String)
    (uniqueTexts : List String) (checkpoint : List (String × Json))
    (out : Output) (s1 : List (String × Json))
    (h : mainRun oracle date uniqueTexts checkpoint = .ok (out, s1)) :
    processLoop oracle (toProcess uniqueTexts checkpoint) checkpoint =
      .ok s1 ∧ buildOutput date s1 = .ok out := by
  unfold mainRun at h
  cases hp : processLoop oracle (toProcess uniqueTexts checkpoint)
      checkpoint with
  | error e => rw [hp] at h; cases h
  | ok s2 =>
      rw [hp] at h
      dsimp only at h
      cases hb : buildOutput date s2 with
      | error e => rw [hb] at h; cases h
      | ok out2 =>
          rw [hb] at h
          dsimp only at h
          injection h with h1
          have e1 : out2 = out := congrArg Prod.fst h1
          have e2 : s2 = s1 := congrArg Prod.snd h1
          rw [e1, e2] at hb
          exact ⟨by rw [e2], hb⟩

theorem mainRun_all_isSome (oracle : String → ServiceOutcome)
    (date : String) (uniqueTexts : List String)
    (checkpoint : List (String × Json)) (out : Output)
    (s1 : List (String × Json))
    (h : mainRun oracle date uniqueTexts checkpoint = .ok (out, s1))
    (t : String) (ht : t ∈ uniqueTexts) : (pyGet s1 t).isSome := by
  obtain ⟨hp, _⟩ := mainRun_ok_inv oracle date uniqueTexts checkpoint
    out s1 h
  by_cases hc : (pyGet checkpoint t).isSome
  · exact processLoop_isSome oracle t _ _ _ hp (Or.inl hc)
  · refine processLoop_isSome oracle t _ _ _ hp (Or.inr ?_)
    rw [toProcess, List.mem_filter]
    refine ⟨ht, ?_⟩
    rw [Option.isNone_iff_eq_none]
    exact Option.not_isSome_iff_eq_none.mp hc

theorem toProcess_nil_of_isSome (uniqueTexts : List String)
    (checkpoint : List (String × Json))
    (h : ∀ t ∈ uniqueTexts, (pyGet checkpoint t).isSome) :
    toProcess uniqueTexts checkpoint = [] := by
  rw [toProcess, List.filter_eq_nil_iff]
  intro t ht
  rw [Bool.not_eq_true, Option.isNone_eq_false_iff]
  exact h t ht

/-! The claims. -/

/-- C6: for every input text whose length is at most 40 characters,
generate_summary returns the text unchanged with a null flag, for every
service outcome alike (the result does not depend on the service), and
performs no call to the external service. -/
theorem C6_short_circuit (text : String) (outcome : ServiceOutcome)
    (h : text.length ≤ MAX_SUMMARY_LENGTH) :
    generate_summary text outcome =
      [("summary", Json.str text), ("flag", Json.null)] ∧
    generate_summary_calls text = 0 := by
  constructor
  · rw [generate_summary.eq_def, if_pos h]
  · rw [generate_summary_calls, if_pos h]

/-- C6 witness: the 5-character text short is returned unchanged with a
null flag and zero service calls, even when the service would fail. -/
theorem C6_witness :
    ("short" : String).length ≤ MAX_SUMMARY_LENGTH ∧
    (generate_summary "short" (.err "timeout") =
        [("summary", Json.str "short"), ("flag", Json.null)] ∧
      generate_summary_calls "short" = 0) :=
  ⟨by decide, C6_short_circuit "short" (.err "timeout") (by decide)⟩

/-- C3: for every input text longer than 40 characters, when the service
call raises any failure the stored record is the fallback: summary equal to
the first 39 characters of the text followed by one ellipsis character, and
a flag that is present and non-null. -/
theorem C3_fallback_truncation (text msg : String)
    (h : MAX_SUMMARY_LENGTH < text.length) :
    generate_summary text (.err msg) =
      [("summary", Json.str (text.take 39 ++ "…")),
       ("flag", Json.str ("API error: " ++ msg.take 50))] ∧
    pyGet (generate_summary text (.err msg)) "flag" ≠ some Json.null ∧
    pyGet (generate_summary text (.err msg)) "flag" ≠ none := by
  have hn : ¬ text.length ≤ MAX_SUMMARY_LENGTH := Nat.not_le.mpr h
  refine ⟨?_, ?_, ?_⟩
  · rw [generate_summary, if_neg hn]
    rfl
  · rw [generate_summary, if_neg hn]
    intro hc
    rw [fallbackRecord_flag_get] at hc
    exact Json.noConfusion (Option.some.inj hc)
  · rw [generate_summary, if_neg hn]
    intro hc
    rw [fallbackRecord_flag_get] at hc
    cases hc

/-- C3 witness: the 55-character longText with a connection failure yields
the fallback record. -/
theorem C3_witness :
    MAX_SUMMARY_LENGTH < longText.length ∧
    (generate_summary longText (.err "Connection error.") =
        [("summary", Json.str (longText.take 39 ++ "…")),
         ("flag",
          Json.str ("API error: " ++ ("Connection error." : String).take 50))] ∧
      pyGet (generate_summary longText (.err "Connection error.")) "flag" ≠
        some Json.null ∧
      pyGet (generate_summary longText (.err "Connection error.")) "flag" ≠
        none) :=
  ⟨by decide, C3_fallback_truncation longText "Connection error." (by decide)⟩

/-- C10: for the service reply that parses to the empty JSON object (no
summary field, hence a falsy default summary of length 0), generate_summary
returns the parsed object as-is: a record with no summary key at all. -/
theorem C10_reply_returned_as_is :
    generate_summary longText (.ok []) = [] ∧
    pyGet (generate_summary longText (.ok [])) "summary" = none :=
  ⟨rfl, rfl⟩

/-- C2: an error can halt the batch loop. With one unprocessed 55-character
text and the service replying with the valid JSON object {} (no summary
field), generate_summary returns a record without a summary key, and the
driver print of result["summary"][:50] at line 167 raises an uncaught
KeyError, halting the run before completion. -/
theorem C2_print_crash :
    mainRun (fun _ => .ok []) "2026-10-12" [longText] [] =
      .error "KeyError: summary" := rfl

/-- C5 counterexample: for the spec example text (which has 72 characters,
not 73), the stored fallback summary is the first 39 characters plus an
ellipsis, which differs from the 41-characters-plus-ellipsis string
displayed in the spec. -/
theorem C5_counterexample :
    pyGet (generate_summary bowlineText (.err "Connection refused"))
        "summary" =
      some (Json.str "Demonstrate tying the bowline knot in u…") ∧
    ("Demonstrate tying the bowline knot in u…" : String) ≠
      "Demonstrate tying the bowline knot in und…" ∧
    bowlineText.length = 72 :=
  ⟨rfl, by decide, by decide⟩

/-- C5 (amended): for the 72-character spec example text, any service
failure stores the record whose summary is the first 39 characters of the
original plus one ellipsis character, namely Demonstrate tying the bowline
knot in u followed by the ellipsis, with flag API error: plus the first 50
characters of the message. -/
theorem C5_fallback_record (msg : String) :
    generate_summary bowlineText (.err msg) =
      [("summary", Json.str "Demonstrate tying the bowline knot in u…"),
       ("flag", Json.str ("API error: " ++ msg.take 50))] ∧
    ("Demonstrate tying the bowline knot in u…" : String) =
      bowlineText.take 39 ++ "…" ∧
    bowlineText.length = 72 := by
  refine ⟨?_, by decide, by decide⟩
  have hn : ¬ bowlineText.length ≤ MAX_SUMMARY_LENGTH := by decide
  rw [generate_summary, if_neg hn]
  rw [fallbackRecord]
  rw [show (bowlineText.take (MAX_SUMMARY_LENGTH - 1) ++ "…" : String) =
    "Demonstrate tying the bowline knot in u…" from by decide]

/-- C4: for every service reply parsed to a JSON object whose summary field
is a string longer than 40 characters, the stored summary is its first 39
characters plus one ellipsis character, of length exactly 40; the stored
flag is present and non-null, and equals auto-truncated whenever the reply
did not itself supply a flag (no flag key, or an explicit null). -/
theorem C4_truncation (text s : String) (fields : List (String × Json))
    (h : MAX_SUMMARY_LENGTH < text.length)
    (hs : pyGet fields "summary" = some (Json.str s))
    (hlen : MAX_SUMMARY_LENGTH < s.length) :
    pyGet (generate_summary text (.ok fields)) "summary" =
      some (Json.str (s.take 39 ++ "…")) ∧
    (s.take 39 ++ "…").length = 40 ∧
    (pyGet (generate_summary text (.ok fields)) "flag" ≠ some Json.null ∧
      pyGet (generate_summary text (.ok fields)) "flag" ≠ none) ∧
    ((pyGet fields "flag").getD Json.null = Json.null →
      pyGet (generate_summary text (.ok fields)) "flag" =
        some (Json.str "auto-truncated")) := by
  have hn : ¬ text.length ≤ MAX_SUMMARY_LENGTH := Nat.not_le.mpr h
  have hgs : generate_summary text (.ok fields) =
      validateResult text fields := by
    rw [generate_summary, if_neg hn]
  have hflag1 : pyGet (pySet fields "summary"
      (Json.str (s.take (MAX_SUMMARY_LENGTH - 1) ++ "…"))) "flag" =
      pyGet fields "flag" :=
    pyGet_pySet_ne fields "summary" "flag" _ (by decide)
  have h39 : MAX_SUMMARY_LENGTH - 1 ≤ s.length :=
    le_of_lt (lt_of_le_of_lt (Nat.sub_le MAX_SUMMARY_LENGTH 1) hlen)
  have hval : validateResult text fields =
      if pyTruthy ((pyGet fields "flag").getD Json.null) = true then
        pySet fields "summary"
          (Json.str (s.take (MAX_SUMMARY_LENGTH - 1) ++ "…"))
      else
        pySet (pySet fields "summary"
            (Json.str (s.take (MAX_SUMMARY_LENGTH - 1) ++ "…")))
          "flag" (Json.str "auto-truncated") := by
    unfold validateResult
    rw [hs]
    simp only [Option.getD_some, pyLen]
    rw [if_pos hlen]
    rw [hflag1]
  rw [hgs, hval]
  by_cases htr : pyTruthy ((pyGet fields "flag").getD Json.null) = true
  · rw [if_pos htr]
    refine ⟨?_, ?_, ⟨?_, ?_⟩, ?_⟩
    · exact pyGet_pySet_self fields "summary" _
    · exact truncated_length_eq s h39
    · rw [hflag1]
      intro hc
      rw [hc] at htr
      exact absurd htr (by decide)
    · rw [hflag1]
      intro hc
      rw [hc] at htr
      exact absurd htr (by decide)
    · intro hnull
      rw [hnull] at htr
      exact absurd htr (by decide)
  · rw [if_neg htr]
    refine ⟨?_, ?_, ⟨?_, ?_⟩, ?_⟩
    · rw [pyGet_pySet_ne _ _ _ _ (by decide)]
      exact pyGet_pySet_self fields "summary" _
    · exact truncated_length_eq s h39
    · rw [pyGet_pySet_self]
      intro hc
      exact Json.noConfusion (Option.some.inj hc)
    · rw [pyGet_pySet_self]
      intro hc
      cases hc
    · intro _
      exact pyGet_pySet_self _ _ _

/-- C4 witness: a reply whose summary is a 41-character string, with no
flag supplied, is truncated to 39 characters plus an ellipsis and flagged
auto-truncated. -/
theorem C4_witness :
    (MAX_SUMMARY_LENGTH < longText.length ∧
      pyGet [("summary", Json.str fortyOneChars)] "summary" =
        some (Json.str fortyOneChars) ∧
      MAX_SUMMARY_LENGTH < fortyOneChars.length) ∧
    (pyGet (generate_summary longText
          (.ok [("summary", Json.str fortyOneChars)])) "summary" =
        some (Json.str (fortyOneChars.take 39 ++ "…")) ∧
      (fortyOneChars.take 39 ++ "…").length = 40 ∧
      (pyGet (generate_summary longText
            (.ok [("summary", Json.str fortyOneChars)])) "flag" ≠
          some Json.null ∧
        pyGet (generate_summary longText
          (.ok [("summary", Json.str fortyOneChars)])) "flag" ≠ none) ∧
      ((pyGet [("summary", Json.str fortyOneChars)] "flag").getD Json.null =
          Json.null →
        pyGet (generate_summary longText
            (.ok [("summary", Json.str fortyOneChars)])) "flag" =
          some (Json.str "auto-truncated"))) :=
  ⟨⟨by decide, rfl, by decide⟩,
    C4_truncation longText fortyOneChars
      [("summary", Json.str fortyOneChars)] (by decide) rfl (by decide)⟩

/-- C7: every binding present in the checkpoint mapping when it is loaded
is still present and unchanged at every later point of the run: after the
driver has processed any prefix of the unprocessed items, the stored record
of every pre-existing key is untouched (the loop only assigns keys that
were filtered out of the checkpoint, and a per-item failure happens after
that assignment, so no other item is ever modified or removed). -/
theorem C7_checkpoint_preserved (oracle : String → ServiceOutcome)
    (uniqueTexts pref suf : List String)
    (checkpoint : List (String × Json)) (k : String) (v : Json)
    (hsplit : toProcess uniqueTexts checkpoint = pref ++ suf)
    (hk : pyGet checkpoint k = some v) :
    pyGet (loopStateAfter oracle checkpoint pref) k = some v := by
  have hnotin : k ∉ pref := by
    intro hmem
    have hmem2 : k ∈ toProcess uniqueTexts checkpoint := by
      rw [hsplit]
      exact List.mem_append_left _ hmem
    rw [mem_toProcess_none _ _ _ hmem2] at hk
    cases hk
  exact loopStateAfter_preserves oracle k v pref checkpoint hk hnotin

/-- C7 witness: with one already-checkpointed key and one new item, the
mapping after processing the new item still binds the old key to its
original record. -/
theorem C7_witness :
    pyGet (loopStateAfter (fun _ => ServiceOutcome.err "boom")
        [("done", Json.obj [("summary", Json.str "d"), ("flag", Json.null)])]
        ["a"]) "done" =
      some (Json.obj [("summary", Json.str "d"), ("flag", Json.null)]) :=
  C7_checkpoint_preserved (fun _ => ServiceOutcome.err "boom")
    ["done", "a"] ["a"] []
    [("done", Json.obj [("summary", Json.str "d"), ("flag", Json.null)])]
    "done" (Json.obj [("summary", Json.str "d"), ("flag", Json.null)])
    rfl rfl

/-- C1 counterexample: a pre-existing checkpoint record whose summary is a
41-character string passes through the run unvalidated, so the written
output artifact contains a summaries value longer than 40 characters. -/
theorem C1_counterexample :
    mainRun (fun _ => ServiceOutcome.err "") "2026-01-01" []
        [("t", Json.obj [("summary", Json.str fortyOneChars),
          ("flag", Json.null)])] =
      .ok ({ version := "1.0", generated := "2026-01-01",
             summaries := [("t", Json.str fortyOneChars)], flags := [] },
           [("t", Json.obj [("summary", Json.str fortyOneChars),
             ("flag", Json.null)])]) ∧
    ¬ fortyOneChars.length ≤ MAX_SUMMARY_LENGTH :=
  ⟨rfl, by decide⟩

/-- C1 (amended): provided every record of the pre-existing checkpoint
whose summary value is a string has length at most 40, then in any
completed run every value of the written summaries mapping that is a string
has length at most 40 (records generated during the run always satisfy the
bound; checkpoint values, and non-string summary values taken verbatim from
replies, are exported unvalidated). -/
theorem C1_string_summaries_bounded (oracle : String → ServiceOutcome)
    (date : String) (uniqueTexts : List String)
    (checkpoint : List (String × Json)) (out : Output)
    (s1 : List (String × Json))
    (hcp : ∀ t v, (t, v) ∈ checkpoint → ∀ fs s, v = Json.obj fs →
      pyGet fs "summary" = some (Json.str s) →
      s.length ≤ MAX_SUMMARY_LENGTH)
    (hrun : mainRun oracle date uniqueTexts checkpoint = .ok (out, s1)) :
    ∀ k j, (k, j) ∈ out.summaries → ∀ s, j = Json.str s →
      s.length ≤ MAX_SUMMARY_LENGTH := by
  intro k j hm s hj
  obtain ⟨hp, hb⟩ :=
    mainRun_ok_inv oracle date uniqueTexts checkpoint out s1 hrun
  obtain ⟨hsf, _, _, _⟩ := buildOutput_ok_inv date s1 out hb
  rcases summariesField_mem s1 out.summaries hsf k j hm with ⟨fs, hmemfs, hgs⟩
  have hstate := processLoop_ok_state oracle _ _ _ hp
  rw [hstate] at hmemfs
  rcases mem_loopStateAfter oracle k (Json.obj fs) _ checkpoint hmemfs
    with h2 | h2
  · subst hj
    exact hcp k (Json.obj fs) h2 fs s rfl hgs
  · rcases h2 with ⟨t, ht⟩
    injection ht with ht2
    rw [ht2] at hgs
    subst hj
    exact generate_summary_summary_le t (oracle t) s hgs

/-- C1 witness: a run over an empty input with a well-formed one-record
checkpoint produces an artifact whose only summary value, the string ok,
satisfies the bound. -/
theorem C1_witness : ("ok" : String).length ≤ MAX_SUMMARY_LENGTH :=
  C1_string_summaries_bounded (fun _ => ServiceOutcome.err "")
    "2026-01-01" []
    [("t", Json.obj [("summary", Json.str "ok"), ("flag", Json.null)])]
    { version := "1.0", generated := "2026-01-01",
      summaries := [("t", Json.str "ok")], flags := [] }
    [("t", Json.obj [("summary", Json.str "ok"), ("flag", Json.null)])]
    (by
      intro t v hm fs s hv hg
      have he := List.mem_singleton.mp hm
      have hv2 : v = Json.obj [("summary", Json.str "ok"),
          ("flag", Json.null)] := congrArg Prod.snd he
      rw [hv2] at hv
      injection hv with hfs
      rw [← hfs] at hg
      have h3 : some (Json.str "ok") = some (Json.str s) := hg
      injection h3 with h4
      injection h4 with h5
      rw [← h5]
      decide)
    rfl "t" (Json.str "ok") (List.mem_singleton.mpr rfl) "ok" rfl

/-- C8 counterexample: a stored record whose flag is the empty string (a
non-null value, which Python treats as falsy) is excluded from the written
flags mapping, so the flags mapping does not contain every key with a
non-null flag. -/
theorem C8_counterexample :
    mainRun (fun _ => ServiceOutcome.err "") "2026-01-01" []
        [("t", Json.obj [("summary", Json.str "s"),
          ("flag", Json.str "")])] =
      .ok ({ version := "1.0", generated := "2026-01-01",
             summaries := [("t", Json.str "s")], flags := [] },
           [("t", Json.obj [("summary", Json.str "s"),
             ("flag", Json.str "")])]) ∧
    Json.str "" ≠ Json.null :=
  ⟨rfl, fun h => Json.noConfusion h⟩

/-- C8 (amended): in any written output artifact, the flags mapping
contains exactly those keys whose stored record carries a truthy flag
value (present and neither null, false, zero, empty string, empty list nor
empty dict - not merely non-null), each mapped to that flag value, and
every such key also appears in the summaries mapping. -/
theorem C8_flags_truthy (date : String) (summaries : List (String × Json))
    (out : Output) (h : buildOutput date summaries = .ok out) :
    (∀ k j, (k, j) ∈ out.flags ↔
      ∃ fs, (k, Json.obj fs) ∈ summaries ∧ pyGet fs "flag" = some j ∧
        pyTruthy j = true) ∧
    (∀ k j, (k, j) ∈ out.flags → ∃ j2, (k, j2) ∈ out.summaries) := by
  obtain ⟨hsf, hfl, _, _⟩ := buildOutput_ok_inv date summaries out h
  constructor
  · intro k j
    rw [hfl]
    exact flagsField_mem k j summaries
  · intro k j hm
    rw [hfl] at hm
    rcases (flagsField_mem k j summaries).mp hm with ⟨fs, hmem, _, _⟩
    exact summariesField_total summaries out.summaries hsf k
      (Json.obj fs) hmem

/-- C8 witness: a record with the truthy flag note appears in the flags
mapping of the built artifact. -/
theorem C8_witness :
    ("t", Json.str "note") ∈
      (Output.mk "1.0" "2026-01-01" [("t", Json.str "s")]
        [("t", Json.str "note")]).flags :=
  ((C8_flags_truthy "2026-01-01"
      [("t", Json.obj [("summary", Json.str "s"),
        ("flag", Json.str "note")])]
      (Output.mk "1.0" "2026-01-01" [("t", Json.str "s")]
        [("t", Json.str "note")]) rfl).1
    "t" (Json.str "note")).mpr
    ⟨[("summary", Json.str "s"), ("flag", Json.str "note")],
      List.mem_singleton.mpr rfl, rfl, rfl⟩

/-- C9 counterexample: with the input text a already checkpointed, two runs
on consecutive days make zero service calls but produce different output
artifacts, because the generated field records each run date. -/
theorem C9_counterexample :
    mainRun (fun _ => ServiceOutcome.err "") "2026-01-01" ["a"]
        [("a", Json.obj [("summary", Json.str "a"), ("flag", Json.null)])] =
      .ok ({ version := "1.0", generated := "2026-01-01",
             summaries := [("a", Json.str "a")], flags := [] },
           [("a", Json.obj [("summary", Json.str "a"),
             ("flag", Json.null)])]) ∧
    mainRun (fun _ => ServiceOutcome.err "") "2026-01-02" ["a"]
        [("a", Json.obj [("summary", Json.str "a"), ("flag", Json.null)])] =
      .ok ({ version := "1.0", generated := "2026-01-02",
             summaries := [("a", Json.str "a")], flags := [] },
           [("a", Json.obj [("summary", Json.str "a"),
             ("flag", Json.null)])]) ∧
    mainCalls (fun _ => ServiceOutcome.err "") ["a"]
        [("a", Json.obj [("summary", Json.str "a"), ("flag", Json.null)])] =
      0 ∧
    ({ version := "1.0", generated := "2026-01-01",
       summaries := [("a", Json.str "a")], flags := [] } : Output) ≠
      { version := "1.0", generated := "2026-01-02",
        summaries := [("a", Json.str "a")], flags := [] } := by
  refine ⟨rfl, rfl, rfl, ?_⟩
  intro h
  have h2 := congrArg Output.generated h
  exact absurd h2 (by decide)

/-- C9 (amended): after any completed run, re-running the batch driver on
the same input with the resulting checkpoint (which contains every unique
input text) performs zero service calls and, when the second run happens
on the same date, writes an output artifact identical to the first run
and leaves the checkpoint unchanged; across different dates only the
generated field differs. -/
theorem C9_idempotent_same_date (oracle oracle2 : String → ServiceOutcome)
    (date : String) (uniqueTexts : List String)
    (checkpoint : List (String × Json)) (out1 : Output)
    (s1 : List (String × Json))
    (hrun : mainRun oracle date uniqueTexts checkpoint = .ok (out1, s1)) :
    mainCalls oracle2 uniqueTexts s1 = 0 ∧
    mainRun oracle2 date uniqueTexts s1 = .ok (out1, s1) := by
  have hall : ∀ t ∈ uniqueTexts, (pyGet s1 t).isSome := fun t ht =>
    mainRun_all_isSome oracle date uniqueTexts checkpoint out1 s1 hrun t ht
  have hnil : toProcess uniqueTexts s1 = [] :=
    toProcess_nil_of_isSome _ _ hall
  obtain ⟨hp, hb⟩ :=
    mainRun_ok_inv oracle date uniqueTexts checkpoint out1 s1 hrun
  constructor
  · rw [mainCalls, hnil]
    rfl
  · unfold mainRun
    rw [hnil]
    dsimp only [processLoop]
    rw [hb]

/-- C9 witness: after a first run from an empty checkpoint over the single
short text a, the second run makes zero service calls and reproduces the
same artifact and checkpoint. -/
theorem C9_witness :
    mainCalls (fun _ => ServiceOutcome.err "") ["a"]
        [("a", Json.obj [("summary", Json.str "a"), ("flag", Json.null)])] =
      0 ∧
    mainRun (fun _ => ServiceOutcome.err "") "2026-01-01" ["a"]
        [("a", Json.obj [("summary", Json.str "a"), ("flag", Json.null)])] =
      .ok ({ version := "1.0", generated := "2026-01-01",
             summaries := [("a", Json.str "a")], flags := [] },
           [("a", Json.obj [("summary", Json.str "a"),
             ("flag", Json.null)])]) :=
  C9_idempotent_same_date (fun _ => ServiceOutcome.err "")
    (fun _ => ServiceOutcome.err "") "2026-01-01" ["a"] []
    { version := "1.0", generated := "2026-01-01",
      summaries := [("a", Json.str "a")], flags := [] }
    [("a", Json.obj [("summary", Json.str "a"), ("flag", Json.null)])]
    rfl

/-- C5 witness: the amended record at a concrete failure message. -/
theorem C5_witness :
    generate_summary bowlineText (.err "network down") =
      [("summary", Json.str "Demonstrate tying the bowline knot in u…"),
       ("flag",
        Json.str ("API error: " ++ ("network down" : String).take 50))] ∧
    ("Demonstrate tying the bowline knot in u…" : String) =
      bowlineText.take 39 ++ "…" ∧
    bowlineText.length = 72 :=
  C5_fallback_record "network down"
